import Mathlib

/-!
# relui web front end (`cmd/relui/web.go`)

A shallow embedding of the HTTP handlers of `cmd/relui/web.go`:
`fileServerHandler`, `createWorkflowHandler` and `startTaskHandler`.

* Every handler is a function from the server, the current world and the
  request to the new world and the ordered list of effects it performed
  (`Event`): response writes, store calls, topic calls, log lines, file
  system checks.
* Go pointers are addresses into an explicit `Heap`; `proto.Clone` allocates
  fresh objects, and field assignments are heap writes.  Pointers held in
  `server.configs` and in `Workflow.BuildableTasks` are taken to be non-nil.
* The `store` interface and the pubsub topic are arbitrary implementations
  over an abstract state; library functions (`uuid.New`, `path.Join`,
  `mime.TypeByExtension`, `os.Stat`, the proto text marshaller) are fields
  of `Env`.
-/

namespace Relui

/-! ## Requests -/

/-- Go `url.Values`: keys with the list of values sent for each. -/
abbrev Values := List (String × List String)

/-- Go `url.Values.Get`: the first value of `key`, or the empty string. -/
def Values.Get (v : Values) (key : String) : String :=
  match v.lookup key with
  | some (x :: _) => x
  | _ => ""

/-- The parts of `*http.Request` the handlers read. -/
structure Request where
  /-- Field `r.URL.Path`. -/
  Path : String
  /-- The error `r.ParseForm()` returns; `none` is a nil error. -/
  ParseFormErr : Option String
  /-- Field `r.Form` once `ParseForm` has run (it is filled in even when
  `ParseForm` reports an error for a malformed component). -/
  Form : Values
  /-- Field `r.PostForm` once the body has been parsed. -/
  PostForm : Values

/-- Go `(*Request).PostFormValue`: first value of `key` in the body, or "". -/
def Request.PostFormValue (r : Request) (key : String) : String :=
  r.PostForm.Get key

/-! ## Protocol buffer messages -/

/-- Go `map[string]string` contents, as an association list with unique keys
in insertion order. -/
abbrev GoMap := List (String × String)

/-- Map read `m[k]` with presence (`v, ok := m[k]`). -/
def mapLookup (m : GoMap) (k : String) : Option String :=
  m.lookup k

/-- Map assignment `m[k] = v`: overwrite the entry of `k` or add one. -/
def mapAssign : GoMap → String → String → GoMap
  | [], k, v => [(k, v)]
  | (k0, v0) :: rest, k, v =>
    if k0 = k then (k, v) :: rest else (k0, v0) :: mapAssign rest k v

/-- Message `reluipb.BuildableTask`: the fields the handlers use. -/
structure BuildableTask where
  Id : String
  TaskType : String
deriving DecidableEq

/-- Message `reluipb.Workflow` as laid out in memory: `Params` is a map
reference (`none` is the nil map) and `BuildableTasks` holds pointers. -/
structure Workflow where
  Id : String
  Params : Option Nat
  BuildableTasks : List Nat
deriving DecidableEq

/-- A workflow with everything it points to read out of the heap. -/
structure WorkflowValue where
  Id : String
  Params : Option GoMap
  BuildableTasks : List BuildableTask
deriving DecidableEq

/-- Read of parameter `k` of a workflow value (a nil map has no keys). -/
def WorkflowValue.param (w : WorkflowValue) (k : String) : Option String :=
  match w.Params with
  | none => none
  | some m => mapLookup m k

/-- Nil-safe getter `(*Workflow).GetId` on the result of a store lookup. -/
def GetId (w : Option WorkflowValue) : String :=
  match w with
  | none => ""
  | some x => x.Id

/-- Message `reluipb.StartBuildableTaskRequest`. -/
structure StartBuildableTaskRequest where
  WorkflowId : String
  BuildableTaskId : String
  BuildableTaskType : String
deriving DecidableEq

/-! ## Memory -/

/-- The heap: three object spaces with bump allocation.  Addresses below the
`next` counters are allocated. -/
structure Heap where
  workflows : Nat → Workflow
  tasks : Nat → BuildableTask
  maps : Nat → GoMap
  nextWorkflow : Nat
  nextTask : Nat
  nextMap : Nat

/-- Dereference a workflow pointer and everything reachable from it. -/
def Heap.read (h : Heap) (p : Nat) : WorkflowValue :=
  { Id := (h.workflows p).Id
    Params := (h.workflows p).Params.map h.maps
    BuildableTasks := (h.workflows p).BuildableTasks.map h.tasks }

/-- Allocate a task object. -/
def Heap.newTask (h : Heap) (t : BuildableTask) : Nat × Heap :=
  (h.nextTask,
    { h with tasks := Function.update h.tasks h.nextTask t, nextTask := h.nextTask + 1 })

/-- Allocate a map object (`make(map[string]string)` followed by copying). -/
def Heap.newMap (h : Heap) (m : GoMap) : Nat × Heap :=
  (h.nextMap,
    { h with maps := Function.update h.maps h.nextMap m, nextMap := h.nextMap + 1 })

/-- Allocate a workflow object. -/
def Heap.newWorkflow (h : Heap) (w : Workflow) : Nat × Heap :=
  (h.nextWorkflow,
    { h with
      workflows := Function.update h.workflows h.nextWorkflow w
      nextWorkflow := h.nextWorkflow + 1 })

/-- Allocate one fresh task object per element, in order. -/
def allocTasks (h : Heap) : List BuildableTask → List Nat × Heap
  | [] => ([], h)
  | t :: ts =>
    let a := h.newTask t
    let r := allocTasks a.2 ts
    (a.1 :: r.1, r.2)

/-- Library `proto.Clone` on a non-nil `*reluipb.Workflow`: a deep copy.  The
source is read, then every task, the map (an empty map is an unpopulated
field and stays nil in the copy) and the message itself are allocated anew. -/
def protoClone (h : Heap) (src : Nat) : Nat × Heap :=
  let v := h.read src
  let ts := allocTasks h v.BuildableTasks
  let mp : Option Nat × Heap :=
    match v.Params with
    | none => (none, ts.2)
    | some m => if m = [] then (none, ts.2) else ((ts.2.newMap m).1, (ts.2.newMap m).2)
  mp.2.newWorkflow { Id := v.Id, Params := mp.1, BuildableTasks := ts.1 }

/-! ## Collaborators -/

/-- The `store` interface: any implementation over a state `σ`.  A nil
pointer result is `none`, a nil error is `none`. -/
structure store (σ : Type) where
  Workflows : σ → List WorkflowValue × σ
  Workflow : σ → String → Option WorkflowValue × σ
  BuildableTask : σ → String → String → Option BuildableTask × σ
  AddWorkflow : σ → WorkflowValue → Option String × σ

/-- What `(*pubsub.PublishResult).Get` yields once the wait is over: the
error, `none` when the message was acknowledged. -/
structure PublishResult where
  err : Option String
deriving DecidableEq

/-- The pubsub topic: any implementation over a state `τ`. -/
structure Topic (τ : Type) where
  Publish : τ → String → PublishResult × τ

/-- Library functions the handlers call. -/
structure Env where
  /-- The string of the `k`-th identifier `uuid.New()` hands out. -/
  uuidNew : Nat → String
  /-- Method `String()` of a `StartBuildableTaskRequest`. -/
  protoString : StartBuildableTaskRequest → String
  /-- Library `path.Join`. -/
  pathJoin : String → String → String
  /-- Library `path.Ext`. -/
  pathExt : String → String
  /-- Library `mime.TypeByExtension`. -/
  mimeTypeByExtension : String → String
  /-- Whether `os.IsNotExist` holds of the error `os.Stat` returns for a path. -/
  statNotExist : String → Bool

/-- The `server` struct. -/
structure server (σ τ : Type) where
  configs : List Nat
  store : store σ
  topic : Topic τ

/-- Everything a handler can change. -/
structure World (σ τ : Type) where
  heap : Heap
  store : σ
  topic : τ
  /-- Number of identifiers `uuid.New()` has handed out so far. -/
  uuidCalls : Nat

/-! ## Effects -/

/-- One observable step of a handler. -/
inductive Event where
  /-- Call `http.Error(w, msg, code)`. -/
  | httpError (msg : String) (code : Nat)
  /-- Call `http.NotFound(w, r)`. -/
  | httpNotFound
  /-- Call `http.Redirect(w, r, url, code)`. -/
  | httpRedirect (url : String) (code : Nat)
  /-- Call `w.Header().Set(key, value)`. -/
  | setHeader (key value : String)
  /-- Call `next.ServeHTTP(w, r)`. -/
  | nextServeHTTP
  /-- Call `os.Stat(name)`. -/
  | osStat (name : String)
  /-- Call `http.FileServer(http.Dir(root)).ServeHTTP(w, r)`. -/
  | fileServerServeHTTP (root : String)
  /-- Call `s.store.Workflow(id)`. -/
  | storeWorkflow (id : String)
  /-- Call `s.store.BuildableTask(workflowId, id)`. -/
  | storeBuildableTask (workflowId id : String)
  /-- Call `s.store.AddWorkflow(wf)`, with what `wf` points to. -/
  | storeAddWorkflow (wf : WorkflowValue)
  /-- Call `s.topic.Publish(ctx, msg)` with `msg.Data`. -/
  | topicPublish (data : String)
  /-- Call `res.Get(ctx)` on the publish result. -/
  | publishResultGet
  /-- Call `log.Printf(format, ...)`. -/
  | logPrintf (format : String)
  /-- A run-time panic (assignment to an entry of a nil map). -/
  | goPanic
deriving DecidableEq

/-- Library `http.StatusText` on the codes used here. -/
def StatusText (code : Nat) : String :=
  if code = 400 then "Bad Request"
  else if code = 404 then "Not Found"
  else if code = 500 then "Internal Server Error"
  else if code = 303 then "See Other"
  else ""

/-- The status code an event writes to the response, if it writes one. -/
def Event.status : Event → Option Nat
  | .httpError _ code => some code
  | .httpNotFound => some 404
  | .httpRedirect _ code => some code
  | _ => none

/-- The status code of the response: the first one written. -/
def responseStatus (evs : List Event) : Option Nat :=
  evs.findSome? Event.status

/-- Whether an event is a call of a `store` method. -/
def Event.isStoreCall : Event → Bool
  | .storeWorkflow _ => true
  | .storeBuildableTask _ _ => true
  | .storeAddWorkflow _ => true
  | _ => false

/-- The runs passed to `AddWorkflow`, in call order. -/
def addWorkflowCalls (evs : List Event) : List WorkflowValue :=
  evs.filterMap fun e =>
    match e with
    | .storeAddWorkflow wf => some wf
    | _ => none

/-- The message bodies passed to `Publish`, in call order. -/
def published (evs : List Event) : List String :=
  evs.filterMap fun e =>
    match e with
    | .topicPublish d => some d
    | _ => none

/-- The targets of the redirects issued. -/
def redirects (evs : List Event) : List (String × Nat) :=
  evs.filterMap fun e =>
    match e with
    | .httpRedirect u c => some (u, c)
    | _ => none

/-! ## Handlers -/

/-- The handler `fileServerHandler(root, next)` returns, run on request `r`. -/
def fileServerHandler (env : Env) (root : String) (r : Request) : List Event :=
  if r.Path = "/" then
    [Event.nextServeHTTP]
  else if env.statNotExist (env.pathJoin root r.Path) then
    [Event.osStat (env.pathJoin root r.Path), Event.httpNotFound]
  else
    [Event.osStat (env.pathJoin root r.Path),
     Event.setHeader "Content-Type" (env.mimeTypeByExtension (env.pathExt r.Path)),
     Event.setHeader "Cache-Control" "no-cache, private, max-age=0",
     Event.fileServerServeHTTP root]

/-- The loop `for _, t := range wf.GetBuildableTasks() { t.Id = uuid.New().String() }`
over the task pointers, starting at identifier number `n`. -/
def assignTaskIds (env : Env) (h : Heap) (n : Nat) : List Nat → Heap × Nat
  | [] => (h, n)
  | t :: ts =>
    assignTaskIds env
      { h with tasks := Function.update h.tasks t { h.tasks t with Id := env.uuidNew n } }
      (n + 1) ts

/-- Statement `if wf.GetParams() == nil { wf.Params = map[string]string{} }`. -/
def ensureParams (h : Heap) (wf : Nat) : Heap :=
  match (h.workflows wf).Params with
  | some _ => h
  | none =>
    let m := h.newMap []
    { m.2 with
      workflows := Function.update m.2.workflows wf { m.2.workflows wf with Params := some m.1 } }

/-- Statement `wf.Id = id`. -/
def setWorkflowId (h : Heap) (wf : Nat) (id : String) : Heap :=
  { h with workflows := Function.update h.workflows wf { h.workflows wf with Id := id } }

/-- Handler `(*server).createWorkflowHandler`. -/
def createWorkflowHandler {σ τ : Type} (env : Env) (s : server σ τ) (w : World σ τ)
    (r : Request) : World σ τ × List Event :=
  match r.ParseFormErr with
  | some _ => (w, [Event.httpError (StatusText 400) 400])
  | none =>
    if r.Form.Get "workflow.revision" = "" then
      (w, [Event.httpError "workflow revision is required" 400])
    else
      match s.configs with
      | [] =>
        (w, [Event.httpError "Unable to create workflow: no workflows configured" 500])
      | c :: _ =>
        let cl := protoClone w.heap c
        let wf := cl.1
        let h1 := ensureParams cl.2 wf
        let h2 := setWorkflowId h1 wf (env.uuidNew w.uuidCalls)
        let lp := assignTaskIds env h2 (w.uuidCalls + 1) (h2.workflows wf).BuildableTasks
        match (lp.1.workflows wf).Params with
        | none => ({ w with heap := lp.1, uuidCalls := lp.2 }, [Event.goPanic])
        | some mp =>
          let h4 : Heap :=
            { lp.1 with
              maps := Function.update lp.1.maps mp
                (mapAssign (lp.1.maps mp) "GitObject" (r.Form.Get "workflow.revision")) }
          let res := s.store.AddWorkflow w.store (h4.read wf)
          let w1 : World σ τ := { w with heap := h4, store := res.2, uuidCalls := lp.2 }
          match res.1 with
          | some _ =>
            (w1, [Event.storeAddWorkflow (h4.read wf),
                  Event.logPrintf "Error adding workflow: s.store.AddWorkflow(%v) = %v",
                  Event.httpError (StatusText 500) 500])
          | none =>
            (w1, [Event.storeAddWorkflow (h4.read wf), Event.httpRedirect "/" 303])

/-- The run `startTaskHandler` gets from `s.store.Workflow`. -/
def lookupRun {σ τ : Type} (s : server σ τ) (w : World σ τ) (r : Request) :
    Option WorkflowValue :=
  (s.store.Workflow w.store (r.PostFormValue "workflow.id")).1

/-- The task `startTaskHandler` gets from `s.store.BuildableTask`. -/
def lookupTask {σ τ : Type} (s : server σ τ) (w : World σ τ) (r : Request) :
    Option BuildableTask :=
  (s.store.BuildableTask (s.store.Workflow w.store (r.PostFormValue "workflow.id")).2
    (r.PostFormValue "workflow.id") (r.PostFormValue "task.id")).1

/-- Handler `(*server).startTaskHandler`. -/
def startTaskHandler {σ τ : Type} (env : Env) (s : server σ τ) (w : World σ τ)
    (r : Request) : World σ τ × List Event :=
  let wf := s.store.Workflow w.store (r.PostFormValue "workflow.id")
  let bt := s.store.BuildableTask wf.2 (r.PostFormValue "workflow.id")
    (r.PostFormValue "task.id")
  let lookups : List Event :=
    [Event.storeWorkflow (r.PostFormValue "workflow.id"),
     Event.storeBuildableTask (r.PostFormValue "workflow.id") (r.PostFormValue "task.id")]
  match bt.1 with
  | none => ({ w with store := bt.2 }, lookups ++ [Event.httpError (StatusText 404) 404])
  | some t =>
    let data := env.protoString
      { WorkflowId := GetId wf.1, BuildableTaskId := t.Id, BuildableTaskType := t.TaskType }
    let res := s.topic.Publish w.topic data
    let w1 : World σ τ := { w with store := bt.2, topic := res.2 }
    match res.1.err with
    | some _ =>
      (w1, lookups ++ [Event.topicPublish data, Event.publishResultGet,
        Event.logPrintf "Error publishing task start: %v",
        Event.httpError (StatusText 500) 500])
    | none =>
      (w1, lookups ++ [Event.topicPublish data, Event.publishResultGet,
        Event.httpRedirect "/" 303])

/-! ## Expected values -/

/-- The tasks with identifiers number `n`, `n + 1`, ... written into them. -/
def renumber (env : Env) : Nat → List BuildableTask → List BuildableTask
  | _, [] => []
  | n, t :: ts => { t with Id := env.uuidNew n } :: renumber env (n + 1) ts

/-- The run instantiated from template value `v` with revision `ref`, when `k`
identifiers have been handed out before. -/
def instantiated (env : Env) (k : Nat) (ref : String) (v : WorkflowValue) : WorkflowValue :=
  { Id := env.uuidNew k
    Params := some (mapAssign (v.Params.getD []) "GitObject" ref)
    BuildableTasks := renumber env (k + 1) v.BuildableTasks }

/-- A workflow pointer and everything reachable from it is allocated. -/
def Heap.Allocated (h : Heap) (p : Nat) : Prop :=
  p < h.nextWorkflow ∧
  (∀ m ∈ (h.workflows p).Params, m < h.nextMap) ∧
  (∀ t ∈ (h.workflows p).BuildableTasks, t < h.nextTask)

instance (h : Heap) (p : Nat) : Decidable (h.Allocated p) := by
  unfold Heap.Allocated
  infer_instance

/-- The heap and identifier count once the clone has its identifiers: the
state `createWorkflowHandler` is in just before `wf.Params["GitObject"] = ref`. -/
def stage (env : Env) (h : Heap) (k : Nat) (c : Nat) : Heap × Nat :=
  assignTaskIds env
    (setWorkflowId (ensureParams (protoClone h c).2 (protoClone h c).1) (protoClone h c).1
      (env.uuidNew k))
    (k + 1)
    ((setWorkflowId (ensureParams (protoClone h c).2 (protoClone h c).1) (protoClone h c).1
      (env.uuidNew k)).workflows (protoClone h c).1).BuildableTasks

/-! ## Example configurations -/

/-- An environment whose `k`-th identifier is `k + 1` letters u. -/
def exampleEnv : Env :=
  { uuidNew := fun k => String.mk (List.replicate (k + 1) 'u')
    protoString := fun q =>
      q.WorkflowId ++ "," ++ q.BuildableTaskId ++ "," ++ q.BuildableTaskType
    pathJoin := fun a b => a ++ b
    pathExt := fun _ => ".css"
    mimeTypeByExtension := fun _ => "text/css"
    statNotExist := fun name => name != "static/style.css" }

/-- A heap holding one template: tasks of type build and test, one parameter. -/
def exampleHeap : Heap :=
  { workflows := fun _ => { Id := "", Params := some 0, BuildableTasks := [0, 1] }
    tasks := fun a =>
      if a = 0 then { Id := "", TaskType := "build" } else { Id := "", TaskType := "test" }
    maps := fun _ => [("Branch", "master")]
    nextWorkflow := 1
    nextTask := 2
    nextMap := 1 }

/-- A store keeping runs and tasks in two tables; the task table is keyed by
run id and task id.  `AddWorkflow` fills both. -/
def tableStore : store (List WorkflowValue × List (String × BuildableTask)) :=
  { Workflows := fun st => (st.1, st)
    Workflow := fun st id => (st.1.find? (fun x => x.Id == id), st)
    BuildableTask := fun st wid id =>
      ((st.2.find? (fun e => e.1 == wid && e.2.Id == id)).map Prod.snd, st)
    AddWorkflow := fun st wf =>
      (none, (st.1 ++ [wf], st.2 ++ wf.BuildableTasks.map fun t => (wf.Id, t))) }

/-- A store whose `AddWorkflow` always reports an error. -/
def failingStore : store (List WorkflowValue × List (String × BuildableTask)) :=
  { tableStore with AddWorkflow := fun st _ => (some "store unavailable", st) }

/-- A topic that records and acknowledges every message. -/
def ackTopic : Topic (List String) :=
  { Publish := fun st d => ({ err := none }, st ++ [d]) }

/-- A topic whose acknowledgment wait always fails. -/
def failingTopic : Topic (List String) :=
  { Publish := fun st d => ({ err := some "context deadline exceeded" }, st ++ [d]) }

/-- A server with the one template of `exampleHeap`. -/
def exampleServer : server (List WorkflowValue × List (String × BuildableTask)) (List String) :=
  { configs := [0], store := tableStore, topic := ackTopic }

/-- A server with no template configured. -/
def emptyServer : server (List WorkflowValue × List (String × BuildableTask)) (List String) :=
  { configs := [], store := tableStore, topic := ackTopic }

/-- A server whose store fails. -/
def failingStoreServer :
    server (List WorkflowValue × List (String × BuildableTask)) (List String) :=
  { configs := [0], store := failingStore, topic := ackTopic }

/-- A server whose topic fails. -/
def failingTopicServer :
    server (List WorkflowValue × List (String × BuildableTask)) (List String) :=
  { configs := [0], store := tableStore, topic := failingTopic }

/-- A world with an empty store. -/
def exampleWorld : World (List WorkflowValue × List (String × BuildableTask)) (List String) :=
  { heap := exampleHeap, store := ([], []), topic := [], uuidCalls := 0 }

/-- A stored run `r1` with one task `t1` of type test. -/
def storedRun : WorkflowValue :=
  { Id := "r1", Params := some [("GitObject", "abc123")],
    BuildableTasks := [{ Id := "t1", TaskType := "test" }] }

/-- A world whose store holds `storedRun`. -/
def runWorld : World (List WorkflowValue × List (String × BuildableTask)) (List String) :=
  { heap := exampleHeap
    store := ([storedRun], [("r1", { Id := "t1", TaskType := "test" })])
    topic := []
    uuidCalls := 3 }

/-- A world whose store has lost run `r1` but still holds its task `t1`. -/
def orphanWorld : World (List WorkflowValue × List (String × BuildableTask)) (List String) :=
  { runWorld with store := ([], [("r1", { Id := "t1", TaskType := "test" })]) }

/-- A create-run request for revision `abc123`. -/
def createRequest : Request :=
  { Path := "/workflows/create", ParseFormErr := none
    Form := [("workflow.revision", ["abc123"])]
    PostForm := [("workflow.revision", ["abc123"])] }

/-- A create-run request without a revision. -/
def noRevisionRequest : Request :=
  { Path := "/workflows/create", ParseFormErr := none, Form := [], PostForm := [] }

/-- A create-run request for revision `abc123` whose URL query is malformed:
`ParseForm` reports the error and still fills in the form from the body. -/
def malformedRequest : Request :=
  { Path := "/workflows/create", ParseFormErr := some "invalid URL escape"
    Form := [("workflow.revision", ["abc123"])]
    PostForm := [("workflow.revision", ["abc123"])] }

/-- A start-task request for task `t1` of run `r1`. -/
def startRequest : Request :=
  { Path := "/tasks/start", ParseFormErr := none
    Form := [("workflow.id", ["r1"]), ("task.id", ["t1"])]
    PostForm := [("workflow.id", ["r1"]), ("task.id", ["t1"])] }

/-- A request for the site root. -/
def rootRequest : Request :=
  { Path := "/", ParseFormErr := none, Form := [], PostForm := [] }

/-- A request for a file that is not there. -/
def missingFileRequest : Request :=
  { Path := "/missing.css", ParseFormErr := none, Form := [], PostForm := [] }

/-! ## Maps -/

theorem mapLookup_mapAssign_self (m : GoMap) (k v : String) :
    mapLookup (mapAssign m k v) k = some v := by
  induction m with
  | nil => simp [mapAssign, mapLookup, List.lookup]
  | cons e rest ih =>
    obtain ⟨k0, v0⟩ := e
    by_cases h : k0 = k
    · simp [mapAssign, mapLookup, List.lookup, h]
    · have hne : (k == k0) = false := by
        simpa using fun h2 : k = k0 => h h2.symm
      simp only [mapAssign, h, if_false, mapLookup, List.lookup, hne]
      exact ih

theorem mapLookup_mapAssign_other (m : GoMap) (k v k1 : String) (hk : k1 ≠ k) :
    mapLookup (mapAssign m k v) k1 = mapLookup m k1 := by
  induction m with
  | nil =>
    have hne : (k1 == k) = false := by simpa using hk
    simp [mapAssign, mapLookup, List.lookup, hne]
  | cons e rest ih =>
    obtain ⟨k0, v0⟩ := e
    by_cases h : k0 = k
    · subst h
      have hne : (k1 == k0) = false := by simpa using hk
      simp [mapAssign, mapLookup, List.lookup, hne]
    · simp only [mapAssign, h, if_false, mapLookup, List.lookup]
      cases hb : (k1 == k0)
      · exact ih
      · rfl

/-! ## Task renumbering -/

theorem renumber_taskTypes (env : Env) (n : Nat) (ts : List BuildableTask) :
    (renumber env n ts).map BuildableTask.TaskType = ts.map BuildableTask.TaskType := by
  induction ts generalizing n with
  | nil => rfl
  | cons t ts ih => simp [renumber, ih]

theorem renumber_ids (env : Env) (n : Nat) (ts : List BuildableTask) :
    (renumber env n ts).map BuildableTask.Id = (List.range' n ts.length).map env.uuidNew := by
  induction ts generalizing n with
  | nil => rfl
  | cons t ts ih => simp [renumber, ih, List.range']

theorem renumber_length (env : Env) (n : Nat) (ts : List BuildableTask) :
    (renumber env n ts).length = ts.length := by
  induction ts generalizing n with
  | nil => rfl
  | cons t ts ih => simp [renumber, ih]

/-! ## Allocation -/

theorem allocTasks_fst (h : Heap) (ts : List BuildableTask) :
    (allocTasks h ts).1 = List.range' h.nextTask ts.length := by
  induction ts generalizing h with
  | nil => rfl
  | cons t ts ih => simp [allocTasks, ih, Heap.newTask, List.range']

theorem allocTasks_frame (h : Heap) (ts : List BuildableTask) :
    (allocTasks h ts).2.workflows = h.workflows ∧ (allocTasks h ts).2.maps = h.maps ∧
    (allocTasks h ts).2.nextWorkflow = h.nextWorkflow ∧
    (allocTasks h ts).2.nextMap = h.nextMap ∧
    (allocTasks h ts).2.nextTask = h.nextTask + ts.length := by
  induction ts generalizing h with
  | nil => simp [allocTasks]
  | cons t ts ih =>
    have := ih (h.newTask t).2
    simp only [allocTasks, List.length_cons]
    simp only [Heap.newTask] at this ⊢
    refine ⟨this.1, this.2.1, this.2.2.1, this.2.2.2.1, ?_⟩
    rw [this.2.2.2.2]
    omega

theorem allocTasks_tasks_lt (h : Heap) (ts : List BuildableTask) (a : Nat)
    (ha : a < h.nextTask) : (allocTasks h ts).2.tasks a = h.tasks a := by
  induction ts generalizing h with
  | nil => rfl
  | cons t ts ih =>
    simp only [allocTasks]
    rw [ih (h.newTask t).2 (by simp only [Heap.newTask]; omega)]
    simp only [Heap.newTask]
    exact Function.update_noteq (by omega) _ _

theorem allocTasks_tasks_map (h : Heap) (ts : List BuildableTask) :
    (List.range' h.nextTask ts.length).map (allocTasks h ts).2.tasks = ts := by
  induction ts generalizing h with
  | nil => rfl
  | cons t ts ih =>
    simp only [allocTasks, List.length_cons, List.range', List.map_cons]
    have h1 := ih (h.newTask t).2
    have h2 := allocTasks_tasks_lt (h.newTask t).2 ts h.nextTask
      (by simp only [Heap.newTask]; omega)
    simp only [Heap.newTask] at h1 h2 ⊢
    rw [h1, h2, Function.update_same]

/-! ## The identifier loop -/

theorem assignTaskIds_frame (env : Env) (h : Heap) (n : Nat) (ps : List Nat) :
    (assignTaskIds env h n ps).1.workflows = h.workflows ∧
    (assignTaskIds env h n ps).1.maps = h.maps ∧
    (assignTaskIds env h n ps).1.nextWorkflow = h.nextWorkflow ∧
    (assignTaskIds env h n ps).1.nextMap = h.nextMap ∧
    (assignTaskIds env h n ps).1.nextTask = h.nextTask ∧
    (assignTaskIds env h n ps).2 = n + ps.length := by
  induction ps generalizing h n with
  | nil => simp [assignTaskIds]
  | cons p ps ih =>
    have := ih { h with tasks := Function.update h.tasks p { h.tasks p with Id := env.uuidNew n } }
      (n + 1)
    simp only [assignTaskIds, List.length_cons]
    refine ⟨this.1, this.2.1, this.2.2.1, this.2.2.2.1, this.2.2.2.2.1, ?_⟩
    rw [this.2.2.2.2.2]
    omega

theorem assignTaskIds_tasks_not_mem (env : Env) (h : Heap) (n : Nat) (ps : List Nat) (a : Nat)
    (ha : a ∉ ps) : (assignTaskIds env h n ps).1.tasks a = h.tasks a := by
  induction ps generalizing h n with
  | nil => rfl
  | cons p ps ih =>
    simp only [List.mem_cons, not_or] at ha
    simp only [assignTaskIds]
    rw [ih _ _ ha.2]
    exact Function.update_noteq ha.1 _ _

theorem assignTaskIds_tasks_map (env : Env) (h : Heap) (n : Nat) (ps : List Nat)
    (hnd : ps.Nodup) :
    ps.map (assignTaskIds env h n ps).1.tasks = renumber env n (ps.map h.tasks) := by
  induction ps generalizing h n with
  | nil => rfl
  | cons p ps ih =>
    rw [List.nodup_cons] at hnd
    simp only [assignTaskIds, List.map_cons, renumber]
    rw [ih _ _ hnd.2, assignTaskIds_tasks_not_mem _ _ _ _ _ hnd.1]
    simp only [Function.update_same]
    congr 2
    apply List.map_congr_left
    intro a ha
    have hne : a ≠ p := fun e => hnd.1 (by rw [← e]; exact ha)
    exact Function.update_noteq hne _ _

/-! ## Cloning and instantiation -/

theorem protoClone_fst (h : Heap) (c : Nat) : (protoClone h c).1 = h.nextWorkflow := by
  have hf := allocTasks_frame h (h.read c).BuildableTasks
  simp only [protoClone, Heap.newWorkflow]
  cases hP : (h.read c).Params with
  | none => simp [hf.2.2.1]
  | some m =>
    by_cases hm : m = []
    · simp [hm, hf.2.2.1]
    · simp [hm, Heap.newMap, hf.2.2.1]

theorem ensure_clone_spec (h : Heap) (c : Nat) :
    (ensureParams (protoClone h c).2 (protoClone h c).1).workflows =
      Function.update h.workflows h.nextWorkflow
        { Id := (h.read c).Id, Params := some h.nextMap,
          BuildableTasks := List.range' h.nextTask (h.read c).BuildableTasks.length } ∧
    (ensureParams (protoClone h c).2 (protoClone h c).1).maps =
      Function.update h.maps h.nextMap ((h.read c).Params.getD []) ∧
    (ensureParams (protoClone h c).2 (protoClone h c).1).tasks =
      (allocTasks h (h.read c).BuildableTasks).2.tasks ∧
    (ensureParams (protoClone h c).2 (protoClone h c).1).nextWorkflow = h.nextWorkflow + 1 ∧
    (ensureParams (protoClone h c).2 (protoClone h c).1).nextMap = h.nextMap + 1 ∧
    (ensureParams (protoClone h c).2 (protoClone h c).1).nextTask =
      h.nextTask + (h.read c).BuildableTasks.length := by
  rw [protoClone_fst]
  have hf := allocTasks_frame h (h.read c).BuildableTasks
  have h1 := allocTasks_fst h (h.read c).BuildableTasks
  obtain ⟨f1, f2, f3, f4, f5⟩ := hf
  cases hP : (h.read c).Params with
  | none =>
    simp [protoClone, Heap.newWorkflow, ensureParams, Heap.newMap, hP, f1, f2, f3, f4, f5, h1]
  | some m =>
    by_cases hm : m = []
    · simp [protoClone, Heap.newWorkflow, ensureParams, Heap.newMap, hP, hm, f1, f2, f3, f4,
        f5, h1]
    · simp [protoClone, Heap.newWorkflow, ensureParams, Heap.newMap, hP, hm, f1, f2, f3, f4,
        f5, h1]

theorem stage_spec (env : Env) (h : Heap) (k c : Nat) :
    (stage env h k c).1.workflows =
      Function.update h.workflows h.nextWorkflow
        { Id := env.uuidNew k, Params := some h.nextMap,
          BuildableTasks := List.range' h.nextTask (h.read c).BuildableTasks.length } ∧
    (stage env h k c).1.maps = Function.update h.maps h.nextMap ((h.read c).Params.getD []) ∧
    (List.range' h.nextTask (h.read c).BuildableTasks.length).map (stage env h k c).1.tasks =
      renumber env (k + 1) (h.read c).BuildableTasks ∧
    (∀ a, a < h.nextTask → (stage env h k c).1.tasks a = h.tasks a) ∧
    (stage env h k c).1.nextWorkflow = h.nextWorkflow + 1 ∧
    (stage env h k c).1.nextMap = h.nextMap + 1 ∧
    (stage env h k c).1.nextTask = h.nextTask + (h.read c).BuildableTasks.length ∧
    (stage env h k c).2 = k + 1 + (h.read c).BuildableTasks.length := by
  obtain ⟨e1, e2, e3, e4, e5, e6⟩ := ensure_clone_spec h c
  have hw : (setWorkflowId (ensureParams (protoClone h c).2 (protoClone h c).1)
      (protoClone h c).1 (env.uuidNew k)).workflows =
      Function.update h.workflows h.nextWorkflow
        { Id := env.uuidNew k, Params := some h.nextMap,
          BuildableTasks := List.range' h.nextTask (h.read c).BuildableTasks.length } := by
    simp only [setWorkflowId]
    rw [e1, protoClone_fst]
    simp
  have hl : ((setWorkflowId (ensureParams (protoClone h c).2 (protoClone h c).1)
      (protoClone h c).1 (env.uuidNew k)).workflows (protoClone h c).1).BuildableTasks =
      List.range' h.nextTask (h.read c).BuildableTasks.length := by
    rw [hw, protoClone_fst, Function.update_same]
  have ht : (setWorkflowId (ensureParams (protoClone h c).2 (protoClone h c).1)
      (protoClone h c).1 (env.uuidNew k)).tasks =
      (allocTasks h (h.read c).BuildableTasks).2.tasks := by
    simp [setWorkflowId, e3]
  unfold stage
  rw [hl]
  obtain ⟨g1, g2, g3, g4, g5, g6⟩ := assignTaskIds_frame env
    (setWorkflowId (ensureParams (protoClone h c).2 (protoClone h c).1) (protoClone h c).1
      (env.uuidNew k)) (k + 1) (List.range' h.nextTask (h.read c).BuildableTasks.length)
  refine ⟨by rw [g1, hw], by rw [g2]; simp [setWorkflowId, e2], ?_, ?_,
    by rw [g3]; simp [setWorkflowId, e4], by rw [g4]; simp [setWorkflowId, e5],
    by rw [g5]; simp [setWorkflowId, e6], by rw [g6]; simp⟩
  · rw [assignTaskIds_tasks_map _ _ _ _ (List.nodup_range' _ _), ht,
      allocTasks_tasks_map]
  · intro a ha
    rw [assignTaskIds_tasks_not_mem, ht, allocTasks_tasks_lt _ _ _ ha]
    simp only [List.mem_range', not_exists, not_and]
    intro i _ hi
    omega

/-- The clone, once the revision is written into its map, reads as the
instantiated run. -/
theorem stage_read (env : Env) (h : Heap) (k c : Nat) (ref : String) :
    Heap.read
      { (stage env h k c).1 with
        maps := Function.update (stage env h k c).1.maps h.nextMap
          (mapAssign ((stage env h k c).1.maps h.nextMap) "GitObject" ref) }
      h.nextWorkflow = instantiated env k ref (h.read c) := by
  obtain ⟨s1, s2, s3, -, -, -, -, -⟩ := stage_spec env h k c
  simp only [Heap.read] at s3
  simp only [Heap.read, instantiated, s1, s2, Function.update_same, Option.map_some']
  rw [s3]

/-- What the handler does on the instantiation path, with the clone's
state named by `stage`. -/
theorem createWorkflowHandler_unfold {σ τ : Type} (env : Env) (s : server σ τ) (w : World σ τ)
    (r : Request) (c : Nat) (rest : List Nat) (hp : r.ParseFormErr = none)
    (hr : r.Form.Get "workflow.revision" ≠ "") (hc : s.configs = c :: rest) :
    createWorkflowHandler env s w r =
      ({ heap := { (stage env w.heap w.uuidCalls c).1 with
            maps := Function.update (stage env w.heap w.uuidCalls c).1.maps w.heap.nextMap
              (mapAssign ((stage env w.heap w.uuidCalls c).1.maps w.heap.nextMap) "GitObject"
                (r.Form.Get "workflow.revision")) }
         store := (s.store.AddWorkflow w.store
            (instantiated env w.uuidCalls (r.Form.Get "workflow.revision") (w.heap.read c))).2
         topic := w.topic
         uuidCalls := (stage env w.heap w.uuidCalls c).2 },
       Event.storeAddWorkflow
          (instantiated env w.uuidCalls (r.Form.Get "workflow.revision") (w.heap.read c)) ::
        match (s.store.AddWorkflow w.store
            (instantiated env w.uuidCalls (r.Form.Get "workflow.revision") (w.heap.read c))).1 with
        | some _ =>
          [Event.logPrintf "Error adding workflow: s.store.AddWorkflow(%v) = %v",
           Event.httpError (StatusText 500) 500]
        | none => [Event.httpRedirect "/" 303]) := by
  have hread := stage_read env w.heap w.uuidCalls c (r.Form.Get "workflow.revision")
  have hP : ((stage env w.heap w.uuidCalls c).1.workflows (protoClone w.heap c).1).Params =
      some w.heap.nextMap := by
    rw [(stage_spec env w.heap w.uuidCalls c).1, protoClone_fst, Function.update_same]
  unfold stage at hP hread ⊢
  simp only [createWorkflowHandler, hp, hr, hc, if_false]
  simp only [protoClone_fst] at hP hread ⊢
  simp only [hP]
  rw [hread]
  cases (s.store.AddWorkflow w.store
    (instantiated env w.uuidCalls (r.Form.Get "workflow.revision") (w.heap.read c))).1 <;> rfl

theorem createWorkflowHandler_parse_error {σ τ : Type} (env : Env) (s : server σ τ)
    (w : World σ τ) (r : Request) (e : String) (hp : r.ParseFormErr = some e) :
    createWorkflowHandler env s w r = (w, [Event.httpError (StatusText 400) 400]) := by
  simp [createWorkflowHandler, hp]

theorem createWorkflowHandler_calls {σ τ : Type} (env : Env) (s : server σ τ) (w : World σ τ)
    (r : Request) (c : Nat) (rest : List Nat) (hp : r.ParseFormErr = none)
    (hr : r.Form.Get "workflow.revision" ≠ "") (hc : s.configs = c :: rest) :
    addWorkflowCalls (createWorkflowHandler env s w r).2 =
      [instantiated env w.uuidCalls (r.Form.Get "workflow.revision") (w.heap.read c)] := by
  rw [createWorkflowHandler_unfold env s w r c rest hp hr hc]
  cases (s.store.AddWorkflow w.store
    (instantiated env w.uuidCalls (r.Form.Get "workflow.revision") (w.heap.read c))).1 <;>
    simp [addWorkflowCalls]

theorem createWorkflowHandler_calls_mem {σ τ : Type} (env : Env) (s : server σ τ)
    (w : World σ τ) (r : Request) (c : Nat) (rest : List Nat)
    (hr : r.Form.Get "workflow.revision" ≠ "") (hc : s.configs = c :: rest)
    (run : WorkflowValue) (hrun : run ∈ addWorkflowCalls (createWorkflowHandler env s w r).2) :
    run = instantiated env w.uuidCalls (r.Form.Get "workflow.revision") (w.heap.read c) := by
  cases hp : r.ParseFormErr with
  | some e =>
    rw [createWorkflowHandler_parse_error env s w r e hp] at hrun
    simp [addWorkflowCalls] at hrun
  | none =>
    rw [createWorkflowHandler_calls env s w r c rest hp hr hc] at hrun
    simpa using hrun

theorem instantiated_param_self (env : Env) (k : Nat) (ref : String) (v : WorkflowValue) :
    (instantiated env k ref v).param "GitObject" = some ref := by
  simp [instantiated, WorkflowValue.param, mapLookup_mapAssign_self]

theorem instantiated_param_other (env : Env) (k : Nat) (ref : String) (v : WorkflowValue)
    (key : String) (hk : key ≠ "GitObject") :
    (instantiated env k ref v).param key = v.param key := by
  simp only [instantiated, WorkflowValue.param]
  rw [mapLookup_mapAssign_other _ _ _ _ hk]
  cases v.Params <;> simp [mapLookup]

theorem instantiated_ids_nodup (env : Env) (k : Nat) (ref : String) (v : WorkflowValue)
    (hu : Function.Injective env.uuidNew) :
    ((instantiated env k ref v).Id ::
      (instantiated env k ref v).BuildableTasks.map BuildableTask.Id).Nodup := by
  have h : (instantiated env k ref v).Id ::
      (instantiated env k ref v).BuildableTasks.map BuildableTask.Id =
      (List.range' k (v.BuildableTasks.length + 1)).map env.uuidNew := by
    simp [instantiated, renumber_ids, List.range'_succ]
  rw [h]
  exact (List.nodup_range' k _).map hu

theorem exampleEnv_uuidNew_injective : Function.Injective exampleEnv.uuidNew := by
  intro a b h
  have h2 := congrArg String.length h
  simp [exampleEnv, String.length] at h2
  exact h2

/-- The handler leaves every object allocated before the call as it was. -/
theorem createWorkflowHandler_frame {σ τ : Type} (env : Env) (s : server σ τ) (w : World σ τ)
    (r : Request) :
    (∀ a, a < w.heap.nextWorkflow →
      (createWorkflowHandler env s w r).1.heap.workflows a = w.heap.workflows a) ∧
    (∀ a, a < w.heap.nextMap →
      (createWorkflowHandler env s w r).1.heap.maps a = w.heap.maps a) ∧
    (∀ a, a < w.heap.nextTask →
      (createWorkflowHandler env s w r).1.heap.tasks a = w.heap.tasks a) := by
  cases hp : r.ParseFormErr with
  | some e =>
    rw [createWorkflowHandler_parse_error env s w r e hp]
    simp
  | none =>
    by_cases hr : r.Form.Get "workflow.revision" = ""
    · simp [createWorkflowHandler, hp, hr]
    · cases hc : s.configs with
      | nil => simp [createWorkflowHandler, hp, hr, hc]
      | cons c rest =>
        rw [createWorkflowHandler_unfold env s w r c rest hp hr hc]
        obtain ⟨s1, s2, -, s4, -, -, -, -⟩ := stage_spec env w.heap w.uuidCalls c
        refine ⟨?_, ?_, ?_⟩
        · intro a ha
          simp only [s1]
          exact Function.update_noteq (by omega) _ _
        · intro a ha
          simp only [s2]
          rw [Function.update_noteq (by omega), Function.update_noteq (by omega)]
        · intro a ha
          exact s4 a ha

/-! ## Static content -/

/-- C10: on the path `/` the returned handler only calls `next` and performs
no `os.Stat`; on any other path whose file is reported not to exist it
answers 404 Not Found and calls neither the file server nor `next`. -/
theorem fileServerHandler_root_and_missing (env : Env) (root : String) (r : Request) :
    (r.Path = "/" →
      fileServerHandler env root r = [Event.nextServeHTTP] ∧
      ∀ name, Event.osStat name ∉ fileServerHandler env root r) ∧
    (r.Path ≠ "/" → env.statNotExist (env.pathJoin root r.Path) = true →
      responseStatus (fileServerHandler env root r) = some 404 ∧
      Event.httpNotFound ∈ fileServerHandler env root r ∧
      (∀ d, Event.fileServerServeHTTP d ∉ fileServerHandler env root r) ∧
      Event.nextServeHTTP ∉ fileServerHandler env root r) := by
  constructor
  · intro hp
    simp [fileServerHandler, hp]
  · intro hp hs
    simp [fileServerHandler, hp, hs, responseStatus, Event.status]

theorem fileServerHandler_root_and_missing_witness :
    (fileServerHandler exampleEnv "static" rootRequest = [Event.nextServeHTTP] ∧
      ∀ name, Event.osStat name ∉ fileServerHandler exampleEnv "static" rootRequest) ∧
    (responseStatus (fileServerHandler exampleEnv "static" missingFileRequest) = some 404 ∧
      Event.httpNotFound ∈ fileServerHandler exampleEnv "static" missingFileRequest ∧
      (∀ d, Event.fileServerServeHTTP d ∉
        fileServerHandler exampleEnv "static" missingFileRequest) ∧
      Event.nextServeHTTP ∉ fileServerHandler exampleEnv "static" missingFileRequest) :=
  ⟨(fileServerHandler_root_and_missing exampleEnv "static" rootRequest).1 rfl,
   (fileServerHandler_root_and_missing exampleEnv "static" missingFileRequest).2
      (by decide) (by decide)⟩

/-! ## Creating a run: rejections -/

/-- C1: when the form field `workflow.revision` is empty (absent or the empty
string), whatever the configured templates, `createWorkflowHandler` answers
with status 400, calls no store method (so never `AddWorkflow`) and leaves
the world as it was. -/
theorem createWorkflowHandler_empty_revision {σ τ : Type} (env : Env) (s : server σ τ)
    (w : World σ τ) (r : Request) (hr : r.Form.Get "workflow.revision" = "") :
    responseStatus (createWorkflowHandler env s w r).2 = some 400 ∧
    (createWorkflowHandler env s w r).2.filter Event.isStoreCall = [] ∧
    addWorkflowCalls (createWorkflowHandler env s w r).2 = [] ∧
    (createWorkflowHandler env s w r).1 = w := by
  unfold createWorkflowHandler
  cases r.ParseFormErr <;>
    simp [hr, responseStatus, Event.status, Event.isStoreCall, addWorkflowCalls]

theorem createWorkflowHandler_empty_revision_witness :
    noRevisionRequest.Form.Get "workflow.revision" = "" ∧
    responseStatus (createWorkflowHandler exampleEnv exampleServer exampleWorld
      noRevisionRequest).2 = some 400 ∧
    (createWorkflowHandler exampleEnv exampleServer exampleWorld
      noRevisionRequest).2.filter Event.isStoreCall = [] ∧
    addWorkflowCalls (createWorkflowHandler exampleEnv exampleServer exampleWorld
      noRevisionRequest).2 = [] ∧
    (createWorkflowHandler exampleEnv exampleServer exampleWorld noRevisionRequest).1 =
      exampleWorld :=
  ⟨by decide,
   createWorkflowHandler_empty_revision exampleEnv exampleServer exampleWorld
     noRevisionRequest (by decide)⟩

/-- C2, as stated, fails: with no template configured and an empty revision
the handler answers 400 (revision required), not the 500 of the
no-templates error. -/
theorem createWorkflowHandler_no_templates_empty_revision :
    emptyServer.configs = [] ∧
    responseStatus (createWorkflowHandler exampleEnv emptyServer exampleWorld
      noRevisionRequest).2 = some 400 ∧
    responseStatus (createWorkflowHandler exampleEnv emptyServer exampleWorld
      noRevisionRequest).2 ≠ some 500 := by
  decide

/-- C2, amended: when no template is configured, `AddWorkflow` is never
called, whatever the request; and when moreover the form parses and the
revision is not empty, the handler answers with the no-templates-configured
error, status 500, and changes nothing. -/
theorem createWorkflowHandler_no_templates {σ τ : Type} (env : Env) (s : server σ τ)
    (w : World σ τ) (r : Request) (hc : s.configs = []) :
    addWorkflowCalls (createWorkflowHandler env s w r).2 = [] ∧
    (r.ParseFormErr = none → r.Form.Get "workflow.revision" ≠ "" →
      createWorkflowHandler env s w r =
        (w, [Event.httpError "Unable to create workflow: no workflows configured" 500]) ∧
      responseStatus (createWorkflowHandler env s w r).2 = some 500) := by
  unfold createWorkflowHandler
  cases hp : r.ParseFormErr with
  | some e => simp [addWorkflowCalls]
  | none =>
    by_cases hr : r.Form.Get "workflow.revision" = ""
    · simp [hr, addWorkflowCalls]
    · simp [hr, hc, addWorkflowCalls, responseStatus, Event.status]

theorem createWorkflowHandler_no_templates_witness :
    emptyServer.configs = [] ∧
    addWorkflowCalls (createWorkflowHandler exampleEnv emptyServer exampleWorld
      createRequest).2 = [] ∧
    createWorkflowHandler exampleEnv emptyServer exampleWorld createRequest =
      (exampleWorld,
        [Event.httpError "Unable to create workflow: no workflows configured" 500]) ∧
    responseStatus (createWorkflowHandler exampleEnv emptyServer exampleWorld
      createRequest).2 = some 500 :=
  ⟨rfl,
   (createWorkflowHandler_no_templates exampleEnv emptyServer exampleWorld createRequest rfl).1,
   (createWorkflowHandler_no_templates exampleEnv emptyServer exampleWorld createRequest rfl).2
     rfl (by decide)⟩

/-! ## Starting a task -/

/-- C6, as stated, fails: when the run lookup misses while the task lookup
still returns a task, `startTaskHandler` publishes a message (with an empty
workflow id) and redirects instead of answering 404. -/
theorem startTaskHandler_run_missing_publishes :
    lookupRun exampleServer orphanWorld startRequest = none ∧
    published (startTaskHandler exampleEnv exampleServer orphanWorld startRequest).2 =
      [",t1,test"] ∧
    responseStatus (startTaskHandler exampleEnv exampleServer orphanWorld startRequest).2 =
      some 303 := by
  decide

/-- C6, amended: when the lookup of the task by `(workflow.id, task.id)`
returns nothing, whatever the run lookup returned, `startTaskHandler` answers
404 Not Found and publishes no message; the topic is left as it was. -/
theorem startTaskHandler_task_missing {σ τ : Type} (env : Env) (s : server σ τ)
    (w : World σ τ) (r : Request) (ht : lookupTask s w r = none) :
    responseStatus (startTaskHandler env s w r).2 = some 404 ∧
    published (startTaskHandler env s w r).2 = [] ∧
    (startTaskHandler env s w r).1.topic = w.topic := by
  unfold lookupTask at ht
  simp [startTaskHandler, ht, responseStatus, Event.status, published]

theorem startTaskHandler_task_missing_witness :
    lookupTask exampleServer exampleWorld startRequest = none ∧
    responseStatus (startTaskHandler exampleEnv exampleServer exampleWorld startRequest).2 =
      some 404 ∧
    published (startTaskHandler exampleEnv exampleServer exampleWorld startRequest).2 = [] ∧
    (startTaskHandler exampleEnv exampleServer exampleWorld startRequest).1.topic =
      exampleWorld.topic :=
  ⟨by decide,
   startTaskHandler_task_missing exampleEnv exampleServer exampleWorld startRequest
     (by decide)⟩

/-- C7: when the store returns the task (in particular when it returns both
the run and the task), `startTaskHandler` calls `Publish` exactly once and
waits on its result once: one publish event is recorded, and the topic
afterwards is the topic before with that one message published on it.  The
response is the 303 redirect to `/` exactly when the wait yields no error,
and when the wait yields an error the response is status 500 and no
redirect is issued. -/
theorem startTaskHandler_publish_once {σ τ : Type} (env : Env) (s : server σ τ)
    (w : World σ τ) (r : Request) (bt : BuildableTask) (ht : lookupTask s w r = some bt) :
    ∃ d, published (startTaskHandler env s w r).2 = [d] ∧
      (startTaskHandler env s w r).1.topic = (s.topic.Publish w.topic d).2 ∧
      (startTaskHandler env s w r).2.count Event.publishResultGet = 1 ∧
      (responseStatus (startTaskHandler env s w r).2 = some 303 ↔
        (s.topic.Publish w.topic d).1.err = none) ∧
      (redirects (startTaskHandler env s w r).2 = [("/", 303)] ↔
        (s.topic.Publish w.topic d).1.err = none) ∧
      ((s.topic.Publish w.topic d).1.err ≠ none →
        responseStatus (startTaskHandler env s w r).2 = some 500 ∧
        redirects (startTaskHandler env s w r).2 = []) := by
  unfold lookupTask at ht
  refine ⟨env.protoString
    { WorkflowId := GetId (s.store.Workflow w.store (r.PostFormValue "workflow.id")).1
      BuildableTaskId := bt.Id, BuildableTaskType := bt.TaskType }, ?_⟩
  cases he : (s.topic.Publish w.topic (env.protoString
    { WorkflowId := GetId (s.store.Workflow w.store (r.PostFormValue "workflow.id")).1
      BuildableTaskId := bt.Id, BuildableTaskType := bt.TaskType })).1.err <;>
    simp [startTaskHandler, ht, he, responseStatus, Event.status, published, redirects]

theorem startTaskHandler_publish_once_witness :
    lookupTask failingTopicServer runWorld startRequest = some { Id := "t1", TaskType := "test" } ∧
    (startTaskHandler exampleEnv failingTopicServer runWorld startRequest).1.topic =
      ["r1,t1,test"] ∧
    ∃ d, published (startTaskHandler exampleEnv failingTopicServer runWorld startRequest).2 = [d] ∧
      (startTaskHandler exampleEnv failingTopicServer runWorld startRequest).1.topic =
        (failingTopicServer.topic.Publish runWorld.topic d).2 ∧
      (startTaskHandler exampleEnv failingTopicServer runWorld startRequest).2.count
        Event.publishResultGet = 1 ∧
      (responseStatus (startTaskHandler exampleEnv failingTopicServer runWorld startRequest).2 =
          some 303 ↔
        (failingTopicServer.topic.Publish runWorld.topic d).1.err = none) ∧
      (redirects (startTaskHandler exampleEnv failingTopicServer runWorld startRequest).2 =
          [("/", 303)] ↔
        (failingTopicServer.topic.Publish runWorld.topic d).1.err = none) ∧
      ((failingTopicServer.topic.Publish runWorld.topic d).1.err ≠ none →
        responseStatus (startTaskHandler exampleEnv failingTopicServer runWorld startRequest).2 =
          some 500 ∧
        redirects (startTaskHandler exampleEnv failingTopicServer runWorld startRequest).2 = []) :=
  ⟨by decide, by decide,
   startTaskHandler_publish_once exampleEnv failingTopicServer runWorld startRequest
     { Id := "t1", TaskType := "test" } (by decide)⟩

/-- C8: when the store returns a task, the one message `startTaskHandler`
publishes is the serialization of the request whose workflow id is the id
of the run the store returned for the field `workflow.id` (`GetId`, the
empty string when there is no such run), whose task id is the id recorded on
the task and whose task type is the task's recorded type; and that message
is what the topic receives: the topic afterwards is the topic before with
exactly this message published on it. -/
theorem startTaskHandler_message {σ τ : Type} (env : Env) (s : server σ τ)
    (w : World σ τ) (r : Request) (bt : BuildableTask) (ht : lookupTask s w r = some bt) :
    (published (startTaskHandler env s w r).2 =
        [env.protoString
          { WorkflowId := GetId (lookupRun s w r)
            BuildableTaskId := bt.Id
            BuildableTaskType := bt.TaskType }] ∧
      (startTaskHandler env s w r).1.topic =
        (s.topic.Publish w.topic (env.protoString
          { WorkflowId := GetId (lookupRun s w r)
            BuildableTaskId := bt.Id
            BuildableTaskType := bt.TaskType })).2) ∧
    ∀ run, lookupRun s w r = some run →
      published (startTaskHandler env s w r).2 =
        [env.protoString
          { WorkflowId := run.Id
            BuildableTaskId := bt.Id
            BuildableTaskType := bt.TaskType }] ∧
      (startTaskHandler env s w r).1.topic =
        (s.topic.Publish w.topic (env.protoString
          { WorkflowId := run.Id
            BuildableTaskId := bt.Id
            BuildableTaskType := bt.TaskType })).2 := by
  unfold lookupTask at ht
  have key : published (startTaskHandler env s w r).2 =
        [env.protoString
          { WorkflowId := GetId (lookupRun s w r)
            BuildableTaskId := bt.Id
            BuildableTaskType := bt.TaskType }] ∧
      (startTaskHandler env s w r).1.topic =
        (s.topic.Publish w.topic (env.protoString
          { WorkflowId := GetId (lookupRun s w r)
            BuildableTaskId := bt.Id
            BuildableTaskType := bt.TaskType })).2 := by
    unfold lookupRun
    cases he : (s.topic.Publish w.topic (env.protoString
      { WorkflowId := GetId (s.store.Workflow w.store (r.PostFormValue "workflow.id")).1
        BuildableTaskId := bt.Id, BuildableTaskType := bt.TaskType })).1.err <;>
      simp [startTaskHandler, ht, he, published]
  refine ⟨key, ?_⟩
  intro run hrun
  have hid : GetId (lookupRun s w r) = run.Id := by rw [hrun]; rfl
  rw [hid] at key
  exact key

theorem startTaskHandler_message_witness :
    lookupTask exampleServer runWorld startRequest = some { Id := "t1", TaskType := "test" } ∧
    lookupRun exampleServer runWorld startRequest = some storedRun ∧
    exampleEnv.protoString
      { WorkflowId := "r1", BuildableTaskId := "t1", BuildableTaskType := "test" } =
      "r1,t1,test" ∧
    (exampleServer.topic.Publish runWorld.topic "r1,t1,test").2 = ["r1,t1,test"] ∧
    published (startTaskHandler exampleEnv exampleServer runWorld startRequest).2 =
      [exampleEnv.protoString
        { WorkflowId := "r1", BuildableTaskId := "t1", BuildableTaskType := "test" }] ∧
    (startTaskHandler exampleEnv exampleServer runWorld startRequest).1.topic =
      (exampleServer.topic.Publish runWorld.topic (exampleEnv.protoString
        { WorkflowId := "r1", BuildableTaskId := "t1", BuildableTaskType := "test" })).2 :=
  ⟨by decide, by decide, by decide, by decide,
   (startTaskHandler_message exampleEnv exampleServer runWorld startRequest
     { Id := "t1", TaskType := "test" } (by decide)).2 storedRun (by decide)⟩

/-! ## Creating a run: instantiation -/

/-- C3: for a non-empty revision and a non-empty list of templates, every run
`createWorkflowHandler` passes to `AddWorkflow` (there is exactly one when
the form parses) maps `GitObject` to the revision, and maps every other key
to exactly what the first configured template maps it to (nothing when the
template has no such key or no mapping at all). -/
theorem createWorkflowHandler_params {σ τ : Type} (env : Env) (s : server σ τ)
    (w : World σ τ) (r : Request) (c : Nat) (rest : List Nat)
    (hr : r.Form.Get "workflow.revision" ≠ "") (hc : s.configs = c :: rest) :
    (r.ParseFormErr = none →
      (addWorkflowCalls (createWorkflowHandler env s w r).2).length = 1) ∧
    ∀ run ∈ addWorkflowCalls (createWorkflowHandler env s w r).2,
      run.param "GitObject" = some (r.Form.Get "workflow.revision") ∧
      ∀ key, key ≠ "GitObject" → run.param key = (w.heap.read c).param key := by
  refine ⟨fun hp => by rw [createWorkflowHandler_calls env s w r c rest hp hr hc]; rfl, ?_⟩
  intro run hrun
  rw [createWorkflowHandler_calls_mem env s w r c rest hr hc run hrun]
  exact ⟨instantiated_param_self _ _ _ _, fun key hk => instantiated_param_other _ _ _ _ key hk⟩

theorem createWorkflowHandler_params_witness :
    createRequest.Form.Get "workflow.revision" ≠ "" ∧
    exampleServer.configs = [0] ∧
    (addWorkflowCalls (createWorkflowHandler exampleEnv exampleServer exampleWorld
      createRequest).2).length = 1 ∧
    ∀ run ∈ addWorkflowCalls (createWorkflowHandler exampleEnv exampleServer exampleWorld
        createRequest).2,
      run.param "GitObject" = some (createRequest.Form.Get "workflow.revision") ∧
      ∀ key, key ≠ "GitObject" → run.param key = (exampleWorld.heap.read 0).param key :=
  ⟨by decide, rfl,
   (createWorkflowHandler_params exampleEnv exampleServer exampleWorld createRequest 0 []
     (by decide) rfl).1 rfl,
   (createWorkflowHandler_params exampleEnv exampleServer exampleWorld createRequest 0 []
     (by decide) rfl).2⟩

/-- C4: for a non-empty revision and a first template with N tasks, when the
identifier generator never repeats a value, every run passed to
`AddWorkflow` (there is exactly one when the form parses) has exactly N
tasks, with the template's task types in the template's order, and the run
id and the N task ids are pairwise distinct. -/
theorem createWorkflowHandler_tasks {σ τ : Type} (env : Env) (s : server σ τ)
    (w : World σ τ) (r : Request) (c : Nat) (rest : List Nat)
    (hr : r.Form.Get "workflow.revision" ≠ "") (hc : s.configs = c :: rest)
    (hu : Function.Injective env.uuidNew) :
    (r.ParseFormErr = none →
      (addWorkflowCalls (createWorkflowHandler env s w r).2).length = 1) ∧
    ∀ run ∈ addWorkflowCalls (createWorkflowHandler env s w r).2,
      run.BuildableTasks.length = (w.heap.read c).BuildableTasks.length ∧
      run.BuildableTasks.map BuildableTask.TaskType =
        (w.heap.read c).BuildableTasks.map BuildableTask.TaskType ∧
      (run.Id :: run.BuildableTasks.map BuildableTask.Id).Nodup := by
  refine ⟨fun hp => by rw [createWorkflowHandler_calls env s w r c rest hp hr hc]; rfl, ?_⟩
  intro run hrun
  rw [createWorkflowHandler_calls_mem env s w r c rest hr hc run hrun]
  exact ⟨renumber_length _ _ _, renumber_taskTypes _ _ _, instantiated_ids_nodup _ _ _ _ hu⟩

theorem createWorkflowHandler_tasks_witness :
    createRequest.Form.Get "workflow.revision" ≠ "" ∧
    exampleServer.configs = [0] ∧
    Function.Injective exampleEnv.uuidNew ∧
    (exampleWorld.heap.read 0).BuildableTasks.length = 2 ∧
    (addWorkflowCalls (createWorkflowHandler exampleEnv exampleServer exampleWorld
      createRequest).2).length = 1 ∧
    ∀ run ∈ addWorkflowCalls (createWorkflowHandler exampleEnv exampleServer exampleWorld
        createRequest).2,
      run.BuildableTasks.length = (exampleWorld.heap.read 0).BuildableTasks.length ∧
      run.BuildableTasks.map BuildableTask.TaskType =
        (exampleWorld.heap.read 0).BuildableTasks.map BuildableTask.TaskType ∧
      (run.Id :: run.BuildableTasks.map BuildableTask.Id).Nodup :=
  ⟨by decide, rfl, exampleEnv_uuidNew_injective, rfl,
   (createWorkflowHandler_tasks exampleEnv exampleServer exampleWorld createRequest 0 []
     (by decide) rfl exampleEnv_uuidNew_injective).1 rfl,
   (createWorkflowHandler_tasks exampleEnv exampleServer exampleWorld createRequest 0 []
     (by decide) rfl exampleEnv_uuidNew_injective).2⟩

/-- C5, as stated, fails: a request that carries a non-empty revision but
whose form does not parse is answered with 400, with a template configured
and without any call of `AddWorkflow`. -/
theorem createWorkflowHandler_malformed_form_not_persisted :
    malformedRequest.Form.Get "workflow.revision" = "abc123" ∧
    exampleServer.configs = [0] ∧
    addWorkflowCalls (createWorkflowHandler exampleEnv exampleServer exampleWorld
      malformedRequest).2 = [] ∧
    responseStatus (createWorkflowHandler exampleEnv exampleServer exampleWorld
      malformedRequest).2 = some 400 := by
  decide

/-- C5, amended: for a request whose form parses without error, with a
non-empty revision and at least one configured template,
`createWorkflowHandler` calls `AddWorkflow` exactly once and no other store
method; it answers with the 303 redirect to `/` exactly when that call
reports no error, and when the call reports an error the answer is status
500 and no redirect is issued. -/
theorem createWorkflowHandler_persist {σ τ : Type} (env : Env) (s : server σ τ)
    (w : World σ τ) (r : Request) (c : Nat) (rest : List Nat) (hp : r.ParseFormErr = none)
    (hr : r.Form.Get "workflow.revision" ≠ "") (hc : s.configs = c :: rest) :
    ∃ run, addWorkflowCalls (createWorkflowHandler env s w r).2 = [run] ∧
      (createWorkflowHandler env s w r).2.filter Event.isStoreCall =
        [Event.storeAddWorkflow run] ∧
      (createWorkflowHandler env s w r).1.store = (s.store.AddWorkflow w.store run).2 ∧
      (responseStatus (createWorkflowHandler env s w r).2 = some 303 ↔
        (s.store.AddWorkflow w.store run).1 = none) ∧
      (redirects (createWorkflowHandler env s w r).2 = [("/", 303)] ↔
        (s.store.AddWorkflow w.store run).1 = none) ∧
      ((s.store.AddWorkflow w.store run).1 ≠ none →
        responseStatus (createWorkflowHandler env s w r).2 = some 500 ∧
        redirects (createWorkflowHandler env s w r).2 = []) := by
  refine ⟨instantiated env w.uuidCalls (r.Form.Get "workflow.revision") (w.heap.read c), ?_⟩
  rw [createWorkflowHandler_unfold env s w r c rest hp hr hc]
  cases he : (s.store.AddWorkflow w.store
    (instantiated env w.uuidCalls (r.Form.Get "workflow.revision") (w.heap.read c))).1 <;>
    simp [addWorkflowCalls, responseStatus, Event.status, Event.isStoreCall, redirects]

theorem createWorkflowHandler_persist_witness :
    createRequest.ParseFormErr = none ∧
    createRequest.Form.Get "workflow.revision" ≠ "" ∧
    failingStoreServer.configs = [0] ∧
    ∃ run, addWorkflowCalls (createWorkflowHandler exampleEnv failingStoreServer exampleWorld
        createRequest).2 = [run] ∧
      (createWorkflowHandler exampleEnv failingStoreServer exampleWorld
        createRequest).2.filter Event.isStoreCall = [Event.storeAddWorkflow run] ∧
      (createWorkflowHandler exampleEnv failingStoreServer exampleWorld createRequest).1.store =
        (failingStoreServer.store.AddWorkflow exampleWorld.store run).2 ∧
      (responseStatus (createWorkflowHandler exampleEnv failingStoreServer exampleWorld
          createRequest).2 = some 303 ↔
        (failingStoreServer.store.AddWorkflow exampleWorld.store run).1 = none) ∧
      (redirects (createWorkflowHandler exampleEnv failingStoreServer exampleWorld
          createRequest).2 = [("/", 303)] ↔
        (failingStoreServer.store.AddWorkflow exampleWorld.store run).1 = none) ∧
      ((failingStoreServer.store.AddWorkflow exampleWorld.store run).1 ≠ none →
        responseStatus (createWorkflowHandler exampleEnv failingStoreServer exampleWorld
          createRequest).2 = some 500 ∧
        redirects (createWorkflowHandler exampleEnv failingStoreServer exampleWorld
          createRequest).2 = []) :=
  ⟨rfl, by decide, rfl,
   createWorkflowHandler_persist exampleEnv failingStoreServer exampleWorld createRequest 0 []
     rfl (by decide) rfl⟩

/-- C9: whatever the request and the outcome, `createWorkflowHandler` leaves
every workflow that was allocated before the call as it was, in particular
every configured template: the object itself (id, map reference, task
pointers) and everything read through it (the parameter mapping, the tasks'
ids and types) are unchanged, so neither the fresh ids nor `GitObject` reach
the template. -/
theorem createWorkflowHandler_templates_unchanged {σ τ : Type} (env : Env) (s : server σ τ)
    (w : World σ τ) (r : Request) (p : Nat) (ha : w.heap.Allocated p) :
    (createWorkflowHandler env s w r).1.heap.workflows p = w.heap.workflows p ∧
    (createWorkflowHandler env s w r).1.heap.read p = w.heap.read p := by
  obtain ⟨f1, f2, f3⟩ := createWorkflowHandler_frame env s w r
  obtain ⟨a1, a2, a3⟩ := ha
  have hw := f1 p a1
  refine ⟨hw, ?_⟩
  simp only [Heap.read, hw]
  congr 1
  · cases hm : (w.heap.workflows p).Params with
    | none => rfl
    | some m => simp [f2 m (a2 m hm)]
  · exact List.map_congr_left fun t ht => f3 t (a3 t ht)

theorem createWorkflowHandler_templates_unchanged_witness :
    0 ∈ exampleServer.configs ∧
    exampleWorld.heap.Allocated 0 ∧
    (createWorkflowHandler exampleEnv exampleServer exampleWorld createRequest).1.heap.workflows 0
      = exampleWorld.heap.workflows 0 ∧
    (createWorkflowHandler exampleEnv exampleServer exampleWorld createRequest).1.heap.read 0 =
      exampleWorld.heap.read 0 :=
  ⟨by decide, by decide,
   createWorkflowHandler_templates_unchanged exampleEnv exampleServer exampleWorld
     createRequest 0 (by decide)⟩

/-! ## End to end -/

/-- The scenario of one template with tasks build and test and revision
`abc123`: the run handed to the store, the store afterwards, and the
template afterwards. -/
theorem createWorkflowHandler_example :
    (createWorkflowHandler exampleEnv exampleServer exampleWorld createRequest).2 =
      [Event.storeAddWorkflow
        { Id := "u", Params := some [("Branch", "master"), ("GitObject", "abc123")],
          BuildableTasks :=
            [{ Id := "uu", TaskType := "build" }, { Id := "uuu", TaskType := "test" }] },
       Event.httpRedirect "/" 303] ∧
    (createWorkflowHandler exampleEnv exampleServer exampleWorld createRequest).1.uuidCalls = 3 ∧
    (createWorkflowHandler exampleEnv exampleServer exampleWorld createRequest).1.heap.read 0 =
      { Id := "", Params := some [("Branch", "master")],
        BuildableTasks :=
          [{ Id := "", TaskType := "build" }, { Id := "", TaskType := "test" }] } := by
  decide

/-- Starting task `t1` of the stored run `r1` publishes one message with the
run id, the task id and the task type, and redirects. -/
theorem startTaskHandler_example :
    (startTaskHandler exampleEnv exampleServer runWorld startRequest).2 =
      [Event.storeWorkflow "r1", Event.storeBuildableTask "r1" "t1",
       Event.topicPublish "r1,t1,test", Event.publishResultGet,
       Event.httpRedirect "/" 303] ∧
    (startTaskHandler exampleEnv exampleServer runWorld startRequest).1.topic =
      ["r1,t1,test"] := by
  decide

end Relui
